import Mathlib

set_option autoImplicit false

/-!
Shallow embedding of the `sqlserver-doctor-mcp` diagnostic-query relay.

The repository exposes four zero-argument diagnostic operations
(`get_server_version`, `list_databases`, `get_active_sessions`,
`get_scheduler_stats` in `src/sqlserver_doctor/server.py`) plus a connection
layer (`src/sqlserver_doctor/utils/connection.py`).  The database driver
(`pyodbc`) and the record validator (`pydantic`) are external libraries; they
are abstracted as inputs:

* a query execution is an `Except String (List RawRow)` — either a driver
  fault carrying its message (Python exception, `str(e)`), or the list of row
  dictionaries produced by `execute_query`;
* the row-to-record conversion performed by a pydantic model constructor
  (`DatabaseInfo(**db)` and friends) is an arbitrary fallible function
  `RawRow → Except String α`, faulting with the exception's message.

Everything the repository itself computes — connection-string assembly, the
column/row zipping of `execute_query`, the per-operation envelope logic, the
scheduler aggregation and interpretation strings — is translated directly
from the source.
-/

/-- A dynamically-typed SQL scalar value as held in a Python row dictionary:
`None`, a string, an integer, or a decimal (decimals modelled as rationals). -/
inductive Value where
  | vnull : Value
  | vstr : String → Value
  | vint : Int → Value
  | vnum : Rat → Value
deriving DecidableEq, Repr

/-- A `RawRow` is a Python dictionary from column name to value, kept in
insertion order, as built by `dict(zip(columns, row))` in `execute_query`. -/
abbrev RawRow : Type := List (String × Value)

/-- Python dictionary lookup `d[k]` (as an `Option`; `none` is a `KeyError`). -/
def dictGet (d : RawRow) (k : String) : Option Value :=
  match d with
  | [] => none
  | (k', v) :: rest => if k' = k then some v else dictGet rest k

/-- Python dictionary assignment `d[k] = v`: overwrite the existing entry in
place when the key is present, otherwise append the new pair at the end. -/
def dictInsert (d : RawRow) (k : String) (v : Value) : RawRow :=
  match d with
  | [] => [(k, v)]
  | (k', v') :: rest =>
    if k' = k then (k, v) :: rest else (k', v') :: dictInsert rest k v

/-- Python `dict(pairs)`: insert the pairs left to right, so that a later
pair with the same key overwrites an earlier one (last write wins). -/
def dictOfPairs (ps : List (String × Value)) : RawRow :=
  ps.foldl (fun d p => dictInsert d p.1 p.2) []

/-- `dict(zip(columns, row))` from `execute_query` (connection.py line 88):
zip the column names with the row values in order and build the dictionary. -/
def rowToDict (columns : List String) (row : List Value) : RawRow :=
  dictOfPairs (columns.zip row)

/-- The fetch loop of `execute_query` (connection.py lines 86-88): the column
names are read once from the cursor description and every fetched row is
converted with the same column list; the whole sequence is built eagerly. -/
def fetchResults (columns : List String) (rows : List (List Value)) : List RawRow :=
  rows.map (rowToDict columns)

/-- `SQLServerConnection.execute_query` with the driver abstracted: the driver
either faults (the `except` blocks log and re-raise, so the fault propagates
unchanged) or yields the cursor's column names and the fetched value rows,
which are zipped into row dictionaries. -/
def execute_query (driverOutcome : Except String (List String × List (List Value))) :
    Except String (List RawRow) :=
  match driverOutcome with
  | .error e => .error e
  | .ok (columns, rows) => .ok (fetchResults columns rows)

/-- Configuration fields of `SQLServerConnection.__init__` (connection.py
lines 20-29), all environment-sourced strings. -/
structure SQLServerConnection where
  host : String
  port : String
  database : String
  user : String
  password : String
  driver : String
  trust_cert : String
  encrypt : String
deriving DecidableEq, Repr

/-- The parts list built by `get_connection_string` (connection.py lines
37-54) before the final `";".join`: five base parts, then either explicit
credentials (`UID=`/`PWD=`) when both user and password are non-empty
(Python truthiness of the strings), or `Trusted_Connection=yes` otherwise. -/
def conn_str_parts (c : SQLServerConnection) : List String :=
  let base := ["DRIVER=\x7b" ++ c.driver ++ "\x7d",
               "SERVER=" ++ c.host ++ "," ++ c.port,
               "DATABASE=" ++ c.database,
               "TrustServerCertificate=" ++ c.trust_cert,
               "Encrypt=" ++ c.encrypt]
  if c.user ≠ "" ∧ c.password ≠ "" then
    base ++ ["UID=" ++ c.user, "PWD=" ++ c.password]
  else
    base ++ ["Trusted_Connection=yes"]

/-- `SQLServerConnection.get_connection_string`: the `";".join` of the parts. -/
def get_connection_string (c : SQLServerConnection) : String :=
  String.intercalate ";" (conn_str_parts c)

/-- The Python dictionary returned by `SQLServerConnection.test_connection`
(connection.py lines 100-114): `success`, `message`, and (on success only)
`server_info` holding the first result row. -/
structure TestConnectionResult where
  success : Bool
  message : String
  server_info : Option RawRow
deriving DecidableEq, Repr

/-- `SQLServerConnection.test_connection` over the abstract query outcome.
On a driver fault the handler returns `Connection failed: ` with the fault's
message.  On zero rows, `result[0]` raises `IndexError` (`str` of which is
`list index out of range`) inside the same `try`, so the handler turns it
into the same failure shape.  On at least one row it returns success with the
first row as `server_info`. -/
def test_connection (q : Except String (List RawRow)) : TestConnectionResult :=
  match q with
  | .error e => { success := false, message := "Connection failed: " ++ e,
                  server_info := none }
  | .ok [] => { success := false,
                message := "Connection failed: list index out of range",
                server_info := none }
  | .ok (r :: _) => { success := true, message := "Connection successful",
                      server_info := some r }

/-- Response model `ServerVersionResponse` (server.py lines 19-25). -/
structure ServerVersionResponse where
  version : String
  server_name : String
  success : Bool
  error : Option String
deriving DecidableEq, Repr

/-- Record `DatabaseInfo` (server.py lines 28-36). -/
structure DatabaseInfo where
  name : String
  database_id : Int
  create_date : String
  state_desc : String
  recovery_model_desc : String
  compatibility_level : Int
deriving DecidableEq, Repr

/-- Response model `DatabaseListResponse` (server.py lines 39-45). -/
structure DatabaseListResponse where
  databases : List DatabaseInfo
  count : Nat
  success : Bool
  error : Option String
deriving DecidableEq, Repr

/-- Record `ActiveSessionInfo` (server.py lines 48-67); nullable source
columns are `Option` fields, millisecond-derived second counts are rationals. -/
structure ActiveSessionInfo where
  sql_text : String
  session_id : Int
  status : String
  command : String
  cpu_seconds : Rat
  elapsed_seconds : Rat
  reads : Int
  logical_reads : Int
  wait_time : Int
  last_wait_type : Option String
  blocking_session_id : Option Int
  connect_time : Option String
  dop : Int
  host_name : Option String
  program_name : Option String
  database_name : Option String
  login_name : Option String
deriving DecidableEq, Repr

/-- Response model `ActiveSessionsResponse` (server.py lines 70-76). -/
structure ActiveSessionsResponse where
  sessions : List ActiveSessionInfo
  count : Nat
  success : Bool
  error : Option String
deriving DecidableEq, Repr

/-- Record `SchedulerStats` (server.py lines 79-88). -/
structure SchedulerStats where
  scheduler_id : Int
  current_tasks_count : Int
  runnable_tasks_count : Int
  work_queue_count : Int
  pending_disk_io_count : Int
deriving DecidableEq, Repr

/-- Response model `SchedulerStatsResponse` (server.py lines 91-107). -/
structure SchedulerStatsResponse where
  schedulers : List SchedulerStats
  scheduler_count : Nat
  total_runnable_tasks : Int
  avg_runnable_per_scheduler : Rat
  cpu_pressure_detected : Bool
  interpretation : String
  success : Bool
  error : Option String
deriving DecidableEq, Repr

/-- The list comprehension `[Record(**row) for row in results]`: convert the
rows left to right, propagating the first conversion fault (which aborts the
whole comprehension in Python). -/
def convertRows {α : Type} (conv : RawRow → Except String α) :
    List RawRow → Except String (List α)
  | [] => .ok []
  | r :: rs =>
    match conv r with
    | .error e => .error e
    | .ok a =>
      match convertRows conv rs with
      | .error e => .error e
      | .ok tail => .ok (a :: tail)

/-- The shared `try` body of the three list operations: run the query (a
driver fault propagates out of `execute_query`), then convert every row. -/
def queryAndConvert {α : Type} (conv : RawRow → Except String α)
    (q : Except String (List RawRow)) : Except String (List α) :=
  match q with
  | .error e => .error e
  | .ok rows => convertRows conv rows

/-- `get_server_version` (server.py lines 112-153) over the abstract query
outcome.  `conv` abstracts the extraction of `results[0]["Version"]` and
`results[0]["ServerName"]` and their pydantic validation, which may fault
(caught by the same `except`).  `if results:` is Python list truthiness, so
the empty row list takes the dedicated `No results returned from query`
branch; any caught fault becomes the failure envelope with `str(e)`. -/
def get_server_version (conv : RawRow → Except String (String × String))
    (q : Except String (List RawRow)) : ServerVersionResponse :=
  match q with
  | .error e =>
    { version := "", server_name := "", success := false, error := some e }
  | .ok [] =>
    { version := "", server_name := "", success := false,
      error := some "No results returned from query" }
  | .ok (r :: _) =>
    match conv r with
    | .error e =>
      { version := "", server_name := "", success := false, error := some e }
    | .ok (v, n) =>
      { version := v, server_name := n, success := true, error := none }

/-- `list_databases` (server.py lines 157-198): convert every row into a
`DatabaseInfo`; on success the envelope carries the records and their count,
and any fault becomes `{databases: [], count: 0, success: false, error}`. -/
def list_databases (conv : RawRow → Except String DatabaseInfo)
    (q : Except String (List RawRow)) : DatabaseListResponse :=
  match queryAndConvert conv q with
  | .error e =>
    { databases := [], count := 0, success := false, error := some e }
  | .ok dbs =>
    { databases := dbs, count := dbs.length, success := true, error := none }

/-- `get_active_sessions` (server.py lines 202-261): same shape as
`list_databases` with `ActiveSessionInfo` records. -/
def get_active_sessions (conv : RawRow → Except String ActiveSessionInfo)
    (q : Except String (List RawRow)) : ActiveSessionsResponse :=
  match queryAndConvert conv q with
  | .error e =>
    { sessions := [], count := 0, success := false, error := some e }
  | .ok ss =>
    { sessions := ss, count := ss.length, success := true, error := none }

/-- Extract a required string field from a row dictionary: a missing key is a
`KeyError` (whose Python `str` is the quoted key), a wrong shape a validation
fault.  A concrete instance of the abstract row-to-record conversion. -/
def strField (d : RawRow) (k : String) : Except String String :=
  match dictGet d k with
  | some (Value.vstr s) => .ok s
  | some _ => .error ("Input should be a valid string: " ++ k)
  | none => .error ("'" ++ k ++ "'")

/-- Extract a required integer field from a row dictionary. -/
def intField (d : RawRow) (k : String) : Except String Int :=
  match dictGet d k with
  | some (Value.vint n) => .ok n
  | some _ => .error ("Input should be a valid integer: " ++ k)
  | none => .error ("'" ++ k ++ "'")

/-- The field extraction of `get_server_version`'s success branch
(server.py lines 131-136): `results[0]["Version"]` and
`results[0]["ServerName"]`, either of which may fault. -/
def versionOfRow (r : RawRow) : Except String (String × String) := do
  let v ← strField r "Version"
  let n ← strField r "ServerName"
  pure (v, n)

/-- `DatabaseInfo(**db)`: build a `DatabaseInfo` from a row dictionary. -/
def databaseOfRow (r : RawRow) : Except String DatabaseInfo := do
  let nm ← strField r "name"
  let did ← intField r "database_id"
  let cd ← strField r "create_date"
  let sd ← strField r "state_desc"
  let rm ← strField r "recovery_model_desc"
  let cl ← intField r "compatibility_level"
  pure { name := nm, database_id := did, create_date := cd, state_desc := sd,
         recovery_model_desc := rm, compatibility_level := cl }

/-- `SchedulerStats(**sched)`: build a `SchedulerStats` from a row dictionary. -/
def schedulerOfRow (r : RawRow) : Except String SchedulerStats := do
  let sid ← intField r "scheduler_id"
  let cur ← intField r "current_tasks_count"
  let rn ← intField r "runnable_tasks_count"
  let wq ← intField r "work_queue_count"
  let pd ← intField r "pending_disk_io_count"
  pure { scheduler_id := sid, current_tasks_count := cur,
         runnable_tasks_count := rn, work_queue_count := wq,
         pending_disk_io_count := pd }

/-- A sample scheduler row dictionary (used to evaluate the operations on
concrete inputs). -/
def mkSchedRow (i rn : Int) : RawRow :=
  [("scheduler_id", Value.vint i), ("current_tasks_count", Value.vint 0),
   ("runnable_tasks_count", Value.vint rn), ("work_queue_count", Value.vint 0),
   ("pending_disk_io_count", Value.vint 0)]

/-- Four scheduler rows with runnable task counts 0, 2, 3, 0 — the worked
example of the specification. -/
def exampleSchedRows : List RawRow :=
  [mkSchedRow 0 0, mkSchedRow 1 2, mkSchedRow 2 3, mkSchedRow 3 0]

/-- A concrete `ActiveSessionInfo` record for concrete-input evaluations. -/
def exampleSession : ActiveSessionInfo :=
  { sql_text := "SELECT 1", session_id := 51, status := "running",
    command := "SELECT", cpu_seconds := 0, elapsed_seconds := 0, reads := 0,
    logical_reads := 0, wait_time := 0, last_wait_type := none,
    blocking_session_id := none, connect_time := none, dop := 1,
    host_name := none, program_name := none, database_name := none,
    login_name := none }

/-- A row-to-record conversion that always succeeds with a fixed session. -/
def sessionConvOk : RawRow → Except String ActiveSessionInfo :=
  fun _ => .ok exampleSession

/-- A row-to-record conversion that always faults (a pydantic validation
error with message `conversion error`). -/
def sessionConvFail : RawRow → Except String ActiveSessionInfo :=
  fun _ => .error "conversion error"

/-- Whether the second character list starts with the first (`List.take`
comparison, written recursively so proofs can follow the structure). -/
def listStartsWith : List Char → List Char → Bool
  | [], _ => true
  | _ :: _, [] => false
  | p :: ps, c :: cs => p == c && listStartsWith ps cs

/-- Whether the pattern occurs contiguously anywhere in the character list —
Python's `in` test on strings. -/
def listOccurs (pat : List Char) : List Char → Bool
  | [] => listStartsWith pat []
  | c :: rest => listStartsWith pat (c :: rest) || listOccurs pat rest

/-- Substring test on strings: `pat in s` in Python. -/
def strContains (s pat : String) : Bool := listOccurs pat.data s.data

/-- Round a rational to the nearest integer, ties to even — the rounding CPython
applies when formatting a float with `:.1f` (for values the float holds
exactly). -/
def roundHalfEven (q : Rat) : Int :=
  let f : Int := ⌊q⌋
  let r : Rat := q - (f : Rat)
  if r < 1/2 then f
  else if 1/2 < r then f + 1
  else if f % 2 = 0 then f else f + 1

/-- Python `f"{x:.1f}"`: fixed-point rendering with one decimal digit. -/
def formatFix1 (q : Rat) : String :=
  let n := roundHalfEven (q * 10)
  let sign := if n < 0 then "-" else ""
  let m := n.natAbs
  sign ++ toString (m / 10) ++ "." ++ toString (m % 10)

/-- The f-string built on server.py lines 307-312 when CPU pressure is
detected: `{total_runnable}` renders as `str` of the integer and
`{avg_runnable:.1f}` as the one-decimal fixed-point form. -/
def pressureInterpretation (total : Int) (avg : Rat) : String :=
  "CPU PRESSURE DETECTED: " ++ toString total ++ " task(s) waiting for CPU. " ++
  "Average " ++ formatFix1 avg ++ " runnable tasks per scheduler. " ++
  "This indicates the server is CPU-constrained. Consider optimizing queries, " ++
  "adding CPU resources, or reducing concurrent workload."

/-- The fixed string built on server.py lines 314-317 when no pressure is
detected. -/
def noPressureInterpretation : String :=
  "No CPU pressure detected. All schedulers have 0 runnable tasks, " ++
  "indicating adequate CPU resources for current workload."

/-- `get_scheduler_stats` (server.py lines 265-345): convert every row into a
`SchedulerStats`, then compute `total_runnable = sum(runnable_tasks_count)`,
`scheduler_count = len(schedulers)`,
`avg_runnable = total_runnable / scheduler_count if scheduler_count > 0 else
0.0` (float division modelled as exact rational division),
`cpu_pressure = total_runnable > 0`, and the interpretation string; any fault
becomes the all-default failure envelope of lines 336-345. -/
def get_scheduler_stats (conv : RawRow → Except String SchedulerStats)
    (q : Except String (List RawRow)) : SchedulerStatsResponse :=
  match queryAndConvert conv q with
  | .error e =>
    { schedulers := [], scheduler_count := 0, total_runnable_tasks := 0,
      avg_runnable_per_scheduler := 0, cpu_pressure_detected := false,
      interpretation := "", success := false, error := some e }
  | .ok schedulers =>
    let total_runnable : Int := (schedulers.map (fun s => s.runnable_tasks_count)).sum
    let scheduler_count : Nat := schedulers.length
    let avg_runnable : Rat :=
      if 0 < scheduler_count then (total_runnable : Rat) / (scheduler_count : Rat)
      else 0
    let cpu_pressure : Bool := decide (0 < total_runnable)
    let interp : String :=
      if cpu_pressure then pressureInterpretation total_runnable avg_runnable
      else noPressureInterpretation
    { schedulers := schedulers, scheduler_count := scheduler_count,
      total_runnable_tasks := total_runnable,
      avg_runnable_per_scheduler := avg_runnable,
      cpu_pressure_detected := cpu_pressure, interpretation := interp,
      success := true, error := none }

/-- The records obtained by converting `exampleSchedRows`. -/
def exampleSchedRecords : List SchedulerStats :=
  [{ scheduler_id := 0, current_tasks_count := 0, runnable_tasks_count := 0,
     work_queue_count := 0, pending_disk_io_count := 0 },
   { scheduler_id := 1, current_tasks_count := 0, runnable_tasks_count := 2,
     work_queue_count := 0, pending_disk_io_count := 0 },
   { scheduler_id := 2, current_tasks_count := 0, runnable_tasks_count := 3,
     work_queue_count := 0, pending_disk_io_count := 0 },
   { scheduler_id := 3, current_tasks_count := 0, runnable_tasks_count := 0,
     work_queue_count := 0, pending_disk_io_count := 0 }]

/-- A configuration with both user and password set (SQL Server
authentication). -/
def exampleConfigSql : SQLServerConnection :=
  { host := "localhost", port := "1433", database := "master", user := "sa",
    password := "secret", driver := "ODBC Driver 17 for SQL Server",
    trust_cert := "yes", encrypt := "no" }

/-- A configuration with the user set but the password empty — per the code
this falls back to integrated (Windows) authentication. -/
def exampleConfigWin : SQLServerConnection :=
  { host := "localhost", port := "1433", database := "master", user := "sa",
    password := "", driver := "ODBC Driver 17 for SQL Server",
    trust_cert := "yes", encrypt := "no" }

/-! ### Helper lemmas -/

theorem dictGet_insert_self (d : RawRow) (k : String) (v : Value) :
    dictGet (dictInsert d k v) k = some v := by
  induction d with
  | nil => simp [dictInsert, dictGet]
  | cons p rest ih =>
    obtain ⟨k', v'⟩ := p
    by_cases h : k' = k
    · simp [dictInsert, dictGet, h]
    · simp [dictInsert, dictGet, h, ih]

theorem dictOfPairs_append_single (ps : List (String × Value)) (k : String) (v : Value) :
    dictOfPairs (ps ++ [(k, v)]) = dictInsert (dictOfPairs ps) k v := by
  simp [dictOfPairs, List.foldl_append]

theorem listStartsWith_self_append (p t : List Char) :
    listStartsWith p (p ++ t) = true := by
  induction p with
  | nil => rfl
  | cons c cs ih => simp [listStartsWith, ih]

theorem listOccurs_nil_pat (l : List Char) : listOccurs [] l = true := by
  cases l with
  | nil => rfl
  | cons c rest => simp [listOccurs, listStartsWith]

theorem listOccurs_of_middle (a p b : List Char) :
    listOccurs p (a ++ (p ++ b)) = true := by
  induction a with
  | nil =>
    simp only [List.nil_append]
    cases p with
    | nil => exact listOccurs_nil_pat _
    | cons c cs =>
      have h := listStartsWith_self_append (c :: cs) b
      simp only [List.cons_append] at h
      simp [listOccurs, h]
  | cons x xs ih => simp [listOccurs, ih]

theorem listOccurs_of_middle_two (a p q b : List Char) :
    listOccurs (p ++ q) (a ++ (p ++ (q ++ b))) = true := by
  have h : a ++ (p ++ (q ++ b)) = a ++ ((p ++ q) ++ b) := by
    simp [List.append_assoc]
  rw [h]
  exact listOccurs_of_middle a (p ++ q) b

theorem listOccurs_of_middle_three (a p q r b : List Char) :
    listOccurs (p ++ (q ++ r)) (a ++ (p ++ (q ++ (r ++ b)))) = true := by
  have h : a ++ (p ++ (q ++ (r ++ b))) = a ++ ((p ++ (q ++ r)) ++ b) := by
    simp [List.append_assoc]
  rw [h]
  exact listOccurs_of_middle a (p ++ (q ++ r)) b

theorem strContains_of_middle (s₁ pat s₂ : String) :
    strContains (s₁ ++ (pat ++ s₂)) pat = true := by
  simp only [strContains, String.data_append]
  exact listOccurs_of_middle _ _ _

theorem ne_of_data_get (a b : String) (i : Nat) (c₁ c₂ : Char)
    (h₁ : a.data[i]? = some c₁) (h₂ : b.data[i]? = some c₂) (hc : c₁ ≠ c₂) :
    a ≠ b := by
  intro e
  rw [e, h₂] at h₁
  exact hc (Option.some.inj h₁).symm

theorem queryAndConvert_error {α : Type} (conv : RawRow → Except String α) (e : String) :
    queryAndConvert conv (Except.error e) = Except.error e := rfl

theorem queryAndConvert_ok_nil {α : Type} (conv : RawRow → Except String α) :
    queryAndConvert conv (Except.ok []) = Except.ok [] := rfl

theorem list_databases_of_ok (conv : RawRow → Except String DatabaseInfo)
    (q : Except String (List RawRow)) (dbs : List DatabaseInfo)
    (h : queryAndConvert conv q = .ok dbs) :
    list_databases conv q =
      { databases := dbs, count := dbs.length, success := true, error := none } := by
  simp [list_databases, h]

theorem list_databases_of_error (conv : RawRow → Except String DatabaseInfo)
    (q : Except String (List RawRow)) (e : String)
    (h : queryAndConvert conv q = .error e) :
    list_databases conv q =
      { databases := [], count := 0, success := false, error := some e } := by
  simp [list_databases, h]

theorem get_active_sessions_of_ok (conv : RawRow → Except String ActiveSessionInfo)
    (q : Except String (List RawRow)) (ss : List ActiveSessionInfo)
    (h : queryAndConvert conv q = .ok ss) :
    get_active_sessions conv q =
      { sessions := ss, count := ss.length, success := true, error := none } := by
  simp [get_active_sessions, h]

theorem get_active_sessions_of_error (conv : RawRow → Except String ActiveSessionInfo)
    (q : Except String (List RawRow)) (e : String)
    (h : queryAndConvert conv q = .error e) :
    get_active_sessions conv q =
      { sessions := [], count := 0, success := false, error := some e } := by
  simp [get_active_sessions, h]

theorem get_scheduler_stats_of_ok (conv : RawRow → Except String SchedulerStats)
    (q : Except String (List RawRow)) (scheds : List SchedulerStats)
    (h : queryAndConvert conv q = .ok scheds) :
    get_scheduler_stats conv q =
      { schedulers := scheds, scheduler_count := scheds.length,
        total_runnable_tasks := (scheds.map (fun s => s.runnable_tasks_count)).sum,
        avg_runnable_per_scheduler :=
          if 0 < scheds.length then
            (((scheds.map (fun s => s.runnable_tasks_count)).sum : Int) : Rat)
              / (scheds.length : Rat)
          else 0,
        cpu_pressure_detected :=
          decide (0 < (scheds.map (fun s => s.runnable_tasks_count)).sum),
        interpretation :=
          if 0 < (scheds.map (fun s => s.runnable_tasks_count)).sum then
            pressureInterpretation ((scheds.map (fun s => s.runnable_tasks_count)).sum)
              (if 0 < scheds.length then
                (((scheds.map (fun s => s.runnable_tasks_count)).sum : Int) : Rat)
                  / (scheds.length : Rat)
              else 0)
          else noPressureInterpretation,
        success := true, error := none } := by
  simp [get_scheduler_stats, h]

theorem get_scheduler_stats_of_error (conv : RawRow → Except String SchedulerStats)
    (q : Except String (List RawRow)) (e : String)
    (h : queryAndConvert conv q = .error e) :
    get_scheduler_stats conv q =
      { schedulers := [], scheduler_count := 0, total_runnable_tasks := 0,
        avg_runnable_per_scheduler := 0, cpu_pressure_detected := false,
        interpretation := "", success := false, error := some e } := by
  simp [get_scheduler_stats, h]

theorem listOccurs_append_left (pat l r : List Char) (h : listOccurs pat r = true) :
    listOccurs pat (l ++ r) = true := by
  induction l with
  | nil => simpa using h
  | cons x xs ih => simp [listOccurs, ih]

theorem listOccurs_self_append_two (p q b : List Char) :
    listOccurs (p ++ q) (p ++ (q ++ b)) = true := by
  have h := listOccurs_of_middle_two [] p q b
  simpa using h

theorem listOccurs_self_append_three (p q r b : List Char) :
    listOccurs (p ++ (q ++ r)) (p ++ (q ++ (r ++ b))) = true := by
  have h := listOccurs_of_middle_three [] p q r b
  simpa using h

theorem pressureInterpretation_contains_total (t : Int) (a : Rat) :
    strContains (pressureInterpretation t a)
      (toString t ++ " task(s) waiting for CPU") = true := by
  have hsplit : (" task(s) waiting for CPU. " : String).data
      = (" task(s) waiting for CPU" : String).data ++ (". " : String).data := by
    decide
  simp only [strContains, pressureInterpretation, String.data_append, hsplit,
    List.append_assoc]
  apply listOccurs_append_left
  exact listOccurs_self_append_two _ _ _

theorem pressureInterpretation_contains_avg (t : Int) (a : Rat) :
    strContains (pressureInterpretation t a)
      ("Average " ++ formatFix1 a ++ " runnable tasks per scheduler") = true := by
  have hsplit : (" runnable tasks per scheduler. " : String).data
      = (" runnable tasks per scheduler" : String).data ++ (". " : String).data := by
    decide
  simp only [strContains, pressureInterpretation, String.data_append, hsplit,
    List.append_assoc]
  apply listOccurs_append_left
  apply listOccurs_append_left
  apply listOccurs_append_left
  exact listOccurs_self_append_three _ _ _ _

theorem conn_str_parts_explicit (c : SQLServerConnection)
    (h : c.user ≠ "" ∧ c.password ≠ "") :
    conn_str_parts c =
      ["DRIVER=\x7b" ++ c.driver ++ "\x7d",
       "SERVER=" ++ c.host ++ "," ++ c.port,
       "DATABASE=" ++ c.database,
       "TrustServerCertificate=" ++ c.trust_cert,
       "Encrypt=" ++ c.encrypt,
       "UID=" ++ c.user,
       "PWD=" ++ c.password] := by
  simp only [conn_str_parts]
  rw [if_pos h]
  rfl

theorem conn_str_parts_integrated (c : SQLServerConnection)
    (h : ¬(c.user ≠ "" ∧ c.password ≠ "")) :
    conn_str_parts c =
      ["DRIVER=\x7b" ++ c.driver ++ "\x7d",
       "SERVER=" ++ c.host ++ "," ++ c.port,
       "DATABASE=" ++ c.database,
       "TrustServerCertificate=" ++ c.trust_cert,
       "Encrypt=" ++ c.encrypt,
       "Trusted_Connection=yes"] := by
  simp only [conn_str_parts]
  rw [if_neg h]
  rfl

/-! ### Claims -/

/-- Claim C5: whenever the version query returns zero rows without raising,
`get_server_version` returns `success = false`, error exactly
`No results returned from query`, and empty version and server-name fields —
an ordinary returned envelope (a defined policy outcome), not a raised
fault, for every field-extraction behaviour. -/
theorem C5_version_empty_result_policy :
    ∀ conv : RawRow → Except String (String × String),
      get_server_version conv (Except.ok []) =
        { version := "", server_name := "", success := false,
          error := some "No results returned from query" } := by
  intro conv
  rfl

/-- Concrete evaluation of claim C5's theorem at the canonical extractor. -/
theorem C5_version_empty_result_policy_witness :
    get_server_version versionOfRow (Except.ok []) =
      { version := "", server_name := "", success := false,
        error := some "No results returned from query" } :=
  C5_version_empty_result_policy versionOfRow

/-- Claim C6: whenever their queries return zero rows without raising,
`list_databases` and `get_active_sessions` return `success = true`,
`count = 0` and an empty list, whatever the conversion function does — in
contrast to `get_server_version`, for which zero rows is a failure. -/
theorem C6_empty_list_is_success :
    (∀ conv : RawRow → Except String DatabaseInfo,
      list_databases conv (Except.ok []) =
        { databases := [], count := 0, success := true, error := none })
  ∧ (∀ conv : RawRow → Except String ActiveSessionInfo,
      get_active_sessions conv (Except.ok []) =
        { sessions := [], count := 0, success := true, error := none })
  ∧ (∀ conv : RawRow → Except String (String × String),
      (get_server_version conv (Except.ok [])).success = false) :=
  ⟨fun _ => rfl, fun _ => rfl, fun _ => rfl⟩

/-- Concrete evaluation of claim C6's theorem at the canonical converters. -/
theorem C6_empty_list_is_success_witness :
    list_databases databaseOfRow (Except.ok []) =
      { databases := [], count := 0, success := true, error := none }
    ∧ get_active_sessions sessionConvOk (Except.ok []) =
      { sessions := [], count := 0, success := true, error := none } :=
  ⟨C6_empty_list_is_success.1 databaseOfRow,
   C6_empty_list_is_success.2.1 sessionConvOk⟩

/-- Claim C8: `execute_query` re-raises driver faults unchanged, eagerly maps
every fetched row through `dict(zip(columns, row))` with the column names
read once, yields the empty sequence (not a fault) for an empty result set,
preserves the row count, and on duplicate column names the later (rightmost)
value wins in the built dictionary — demonstrated in general for a final
duplicate pair and on a concrete three-column row. -/
theorem C8_execute_query_zip :
    (∀ e : String, execute_query (Except.error e) = Except.error e)
  ∧ (∀ (columns : List String) (rows : List (List Value)),
      execute_query (Except.ok (columns, rows)) =
        Except.ok (rows.map (rowToDict columns)))
  ∧ (∀ columns : List String, fetchResults columns [] = [])
  ∧ (∀ (columns : List String) (rows : List (List Value)),
      (fetchResults columns rows).length = rows.length)
  ∧ (∀ (ps : List (String × Value)) (k : String) (v : Value),
      dictGet (dictOfPairs (ps ++ [(k, v)])) k = some v)
  ∧ dictGet (rowToDict ["a", "b", "a"] [Value.vint 1, Value.vint 2, Value.vint 3]) "a"
      = some (Value.vint 3) := by
  refine ⟨fun _ => rfl, fun _ _ => rfl, fun _ => rfl,
    fun _ rows => by simp [fetchResults], ?_, by decide⟩
  intro ps k v
  rw [dictOfPairs_append_single]
  exact dictGet_insert_self _ _ _

/-- Concrete evaluation of claim C8's theorem: the second of two pairs with
the same key wins. -/
theorem C8_execute_query_zip_witness :
    dictGet (dictOfPairs ([("a", Value.vint 1)] ++ [("a", Value.vint 2)])) "a"
      = some (Value.vint 2) :=
  C8_execute_query_zip.2.2.2.2.1 [("a", Value.vint 1)] "a" (Value.vint 2)

/-- Claim C9: in every envelope returned by the three list-shaped operations,
on success and failure alike, the count field equals the length of the
accompanying list. -/
theorem C9_count_equals_length :
    (∀ (conv : RawRow → Except String DatabaseInfo)
        (q : Except String (List RawRow)),
      (list_databases conv q).count = (list_databases conv q).databases.length)
  ∧ (∀ (conv : RawRow → Except String ActiveSessionInfo)
        (q : Except String (List RawRow)),
      (get_active_sessions conv q).count
        = (get_active_sessions conv q).sessions.length)
  ∧ (∀ (conv : RawRow → Except String SchedulerStats)
        (q : Except String (List RawRow)),
      (get_scheduler_stats conv q).scheduler_count
        = (get_scheduler_stats conv q).schedulers.length) := by
  refine ⟨?_, ?_, ?_⟩ <;> intro conv q <;>
    rcases h : queryAndConvert conv q with e | xs <;>
      simp [list_databases, get_active_sessions, get_scheduler_stats, h]

/-- Concrete evaluation of claim C9's theorem on a failing query. -/
theorem C9_count_equals_length_witness :
    (get_scheduler_stats schedulerOfRow (Except.error "network down")).scheduler_count
      = (get_scheduler_stats schedulerOfRow (Except.error "network down")).schedulers.length :=
  C9_count_equals_length.2.2 schedulerOfRow (Except.error "network down")

/-- Claim C10: when the underlying query yields zero rows, `test_connection`
returns `success = false` with a non-empty message (indexing `result[0]` on
the empty list raises `IndexError`, caught by its own handler), rather than
raising or returning success. -/
theorem C10_test_connection_zero_rows :
    (test_connection (Except.ok [])).success = false
    ∧ (test_connection (Except.ok [])).message ≠ ""
    ∧ (test_connection (Except.ok [])).message
        = "Connection failed: list index out of range" := by
  refine ⟨rfl, ?_, rfl⟩
  decide

/-- Claim C1: for every outcome of each of the four operations —
driver fault, conversion fault, and every row list — the returned envelope
satisfies `success = false` iff the error field is set (non-empty),
`success = true` implies the error field is empty (`none`), and
`success = false` implies all payload fields hold their empty/default
values. -/
theorem C1_envelope_invariant :
    (∀ (conv : RawRow → Except String (String × String))
        (q : Except String (List RawRow)),
      ((get_server_version conv q).success = false
          ↔ (get_server_version conv q).error ≠ none)
      ∧ ((get_server_version conv q).success = true
          → (get_server_version conv q).error = none)
      ∧ ((get_server_version conv q).success = false
          → (get_server_version conv q).version = ""
            ∧ (get_server_version conv q).server_name = ""))
  ∧ (∀ (conv : RawRow → Except String DatabaseInfo)
        (q : Except String (List RawRow)),
      ((list_databases conv q).success = false
          ↔ (list_databases conv q).error ≠ none)
      ∧ ((list_databases conv q).success = true
          → (list_databases conv q).error = none)
      ∧ ((list_databases conv q).success = false
          → (list_databases conv q).databases = []
            ∧ (list_databases conv q).count = 0))
  ∧ (∀ (conv : RawRow → Except String ActiveSessionInfo)
        (q : Except String (List RawRow)),
      ((get_active_sessions conv q).success = false
          ↔ (get_active_sessions conv q).error ≠ none)
      ∧ ((get_active_sessions conv q).success = true
          → (get_active_sessions conv q).error = none)
      ∧ ((get_active_sessions conv q).success = false
          → (get_active_sessions conv q).sessions = []
            ∧ (get_active_sessions conv q).count = 0))
  ∧ (∀ (conv : RawRow → Except String SchedulerStats)
        (q : Except String (List RawRow)),
      ((get_scheduler_stats conv q).success = false
          ↔ (get_scheduler_stats conv q).error ≠ none)
      ∧ ((get_scheduler_stats conv q).success = true
          → (get_scheduler_stats conv q).error = none)
      ∧ ((get_scheduler_stats conv q).success = false
          → (get_scheduler_stats conv q).schedulers = []
            ∧ (get_scheduler_stats conv q).scheduler_count = 0
            ∧ (get_scheduler_stats conv q).total_runnable_tasks = 0
            ∧ (get_scheduler_stats conv q).avg_runnable_per_scheduler = 0
            ∧ (get_scheduler_stats conv q).cpu_pressure_detected = false
            ∧ (get_scheduler_stats conv q).interpretation = "")) := by
  refine ⟨?_, ?_, ?_, ?_⟩
  · intro conv q
    rcases q with e | rows
    · simp [get_server_version]
    · rcases rows with _ | ⟨r, rest⟩
      · simp [get_server_version]
      · rcases h : conv r with e | ⟨v, n⟩ <;> simp [get_server_version, h]
  · intro conv q
    rcases h : queryAndConvert conv q with e | xs <;> simp [list_databases, h]
  · intro conv q
    rcases h : queryAndConvert conv q with e | xs <;> simp [get_active_sessions, h]
  · intro conv q
    rcases h : queryAndConvert conv q with e | xs <;> simp [get_scheduler_stats, h]

/-- Concrete evaluation of claim C1's theorem: a failed scheduler call has a
set error field and default payload, and the empty-version failure has an
empty version field. -/
theorem C1_envelope_invariant_witness :
    (get_scheduler_stats schedulerOfRow (Except.error "login timeout")).error ≠ none
    ∧ (get_scheduler_stats schedulerOfRow (Except.error "login timeout")).interpretation = ""
    ∧ (get_server_version versionOfRow (Except.ok [])).version = "" := by
  refine ⟨?_, ?_, ?_⟩
  · exact (C1_envelope_invariant.2.2.2 schedulerOfRow (Except.error "login timeout")).1.mp rfl
  · exact ((C1_envelope_invariant.2.2.2 schedulerOfRow
      (Except.error "login timeout")).2.2 rfl).2.2.2.2.2
  · exact ((C1_envelope_invariant.1 versionOfRow (Except.ok [])).2.2 rfl).1

/-- Claim C2: every fault raised by query execution (a driver fault) or by
row-to-record conversion, in any of the four operations, is not propagated
(each operation is a total function into its envelope type) and yields the
failure envelope carrying exactly the fault's message and the empty/default
payload. -/
theorem C2_fault_becomes_failure_envelope :
    (∀ (conv : RawRow → Except String (String × String)) (e : String),
      get_server_version conv (Except.error e) =
        { version := "", server_name := "", success := false, error := some e })
  ∧ (∀ (conv : RawRow → Except String (String × String)) (r : RawRow)
        (rest : List RawRow) (e : String), conv r = .error e →
      get_server_version conv (Except.ok (r :: rest)) =
        { version := "", server_name := "", success := false, error := some e })
  ∧ (∀ (conv : RawRow → Except String DatabaseInfo) (e : String),
      list_databases conv (Except.error e) =
        { databases := [], count := 0, success := false, error := some e })
  ∧ (∀ (conv : RawRow → Except String DatabaseInfo) (rows : List RawRow)
        (e : String), convertRows conv rows = .error e →
      list_databases conv (Except.ok rows) =
        { databases := [], count := 0, success := false, error := some e })
  ∧ (∀ (conv : RawRow → Except String ActiveSessionInfo) (e : String),
      get_active_sessions conv (Except.error e) =
        { sessions := [], count := 0, success := false, error := some e })
  ∧ (∀ (conv : RawRow → Except String ActiveSessionInfo) (rows : List RawRow)
        (e : String), convertRows conv rows = .error e →
      get_active_sessions conv (Except.ok rows) =
        { sessions := [], count := 0, success := false, error := some e })
  ∧ (∀ (conv : RawRow → Except String SchedulerStats) (e : String),
      get_scheduler_stats conv (Except.error e) =
        { schedulers := [], scheduler_count := 0, total_runnable_tasks := 0,
          avg_runnable_per_scheduler := 0, cpu_pressure_detected := false,
          interpretation := "", success := false, error := some e })
  ∧ (∀ (conv : RawRow → Except String SchedulerStats) (rows : List RawRow)
        (e : String), convertRows conv rows = .error e →
      get_scheduler_stats conv (Except.ok rows) =
        { schedulers := [], scheduler_count := 0, total_runnable_tasks := 0,
          avg_runnable_per_scheduler := 0, cpu_pressure_detected := false,
          interpretation := "", success := false, error := some e }) := by
  refine ⟨fun _ _ => rfl, ?_, fun _ _ => rfl, ?_, fun _ _ => rfl, ?_,
    fun _ _ => rfl, ?_⟩
  · intro conv r rest e h
    simp [get_server_version, h]
  · intro conv rows e h
    exact list_databases_of_error conv (Except.ok rows) e h
  · intro conv rows e h
    exact get_active_sessions_of_error conv (Except.ok rows) e h
  · intro conv rows e h
    exact get_scheduler_stats_of_error conv (Except.ok rows) e h

/-- Concrete evaluation of claim C2's theorem: a conversion fault on one row
becomes the failure envelope with that fault's message. -/
theorem C2_fault_becomes_failure_envelope_witness :
    get_active_sessions sessionConvFail (Except.ok [[]]) =
      { sessions := [], count := 0, success := false,
        error := some "conversion error" } :=
  C2_fault_becomes_failure_envelope.2.2.2.2.2.1 sessionConvFail [[]]
    "conversion error" rfl

/-- Claim C3: for every converted scheduler row list (the empty list
included), `get_scheduler_stats` computes `total_runnable_tasks` as the sum
of `runnable_tasks_count`, `scheduler_count` as the number of rows, and
`avg_runnable_per_scheduler` as total divided by count when the count is
positive and `0.0` for zero rows (the division is guarded, so no fault is
possible — the operation is a total function); on the rows with runnable
counts `[0, 2, 3, 0]` this yields total 5, count 4 and average 1.25. -/
theorem C3_scheduler_aggregates :
    (∀ (conv : RawRow → Except String SchedulerStats)
        (q : Except String (List RawRow)) (scheds : List SchedulerStats),
      queryAndConvert conv q = .ok scheds →
      (get_scheduler_stats conv q).total_runnable_tasks
          = (scheds.map (fun s => s.runnable_tasks_count)).sum
      ∧ (get_scheduler_stats conv q).scheduler_count = scheds.length
      ∧ (get_scheduler_stats conv q).avg_runnable_per_scheduler
          = (if 0 < scheds.length then
              (((scheds.map (fun s => s.runnable_tasks_count)).sum : Int) : Rat)
                / (scheds.length : Rat)
            else 0))
  ∧ (∀ conv : RawRow → Except String SchedulerStats,
      (get_scheduler_stats conv (Except.ok [])).scheduler_count = 0
      ∧ (get_scheduler_stats conv (Except.ok [])).avg_runnable_per_scheduler = 0
      ∧ (get_scheduler_stats conv (Except.ok [])).success = true)
  ∧ ((get_scheduler_stats schedulerOfRow (Except.ok exampleSchedRows)).total_runnable_tasks
        = 5
      ∧ (get_scheduler_stats schedulerOfRow (Except.ok exampleSchedRows)).scheduler_count
        = 4
      ∧ (get_scheduler_stats schedulerOfRow
          (Except.ok exampleSchedRows)).avg_runnable_per_scheduler = 1.25) := by
  refine ⟨?_, ?_, ?_⟩
  · intro conv q scheds h
    rw [get_scheduler_stats_of_ok conv q scheds h]
    exact ⟨rfl, rfl, rfl⟩
  · intro conv
    exact ⟨rfl, rfl, rfl⟩
  · have h : queryAndConvert schedulerOfRow (Except.ok exampleSchedRows)
        = Except.ok exampleSchedRecords := by rfl
    rw [get_scheduler_stats_of_ok _ _ _ h]
    refine ⟨by norm_num [exampleSchedRecords], by norm_num [exampleSchedRecords], ?_⟩
    norm_num [exampleSchedRecords]

/-- Concrete evaluation of claim C3's theorem on the worked example. -/
theorem C3_scheduler_aggregates_witness :
    (get_scheduler_stats schedulerOfRow (Except.ok exampleSchedRows)).scheduler_count
      = exampleSchedRecords.length :=
  (C3_scheduler_aggregates.1 schedulerOfRow (Except.ok exampleSchedRows)
    exampleSchedRecords rfl).2.1

/-- Claim C4: on every successful `get_scheduler_stats` call the
`cpu_pressure_detected` flag is true exactly when `total_runnable_tasks > 0`
(a total-count trigger, not an average- or per-scheduler threshold); when
pressure is detected the interpretation states the total count and the
average rounded to one decimal place, and when not — in particular when
every row has `runnable_tasks_count = 0` over any number of rows — the
interpretation is the fixed no-pressure text, which states that no pressure
was detected. -/
theorem C4_pressure_trigger_and_interpretation :
    (∀ (conv : RawRow → Except String SchedulerStats)
        (q : Except String (List RawRow)) (scheds : List SchedulerStats),
      queryAndConvert conv q = .ok scheds →
      ((get_scheduler_stats conv q).cpu_pressure_detected = true
          ↔ 0 < (get_scheduler_stats conv q).total_runnable_tasks)
      ∧ ((get_scheduler_stats conv q).cpu_pressure_detected = true →
          strContains (get_scheduler_stats conv q).interpretation
            (toString (get_scheduler_stats conv q).total_runnable_tasks
              ++ " task(s) waiting for CPU") = true
          ∧ strContains (get_scheduler_stats conv q).interpretation
            ("Average "
              ++ formatFix1 (get_scheduler_stats conv q).avg_runnable_per_scheduler
              ++ " runnable tasks per scheduler") = true)
      ∧ ((get_scheduler_stats conv q).cpu_pressure_detected = false →
          (get_scheduler_stats conv q).interpretation = noPressureInterpretation))
  ∧ strContains noPressureInterpretation "No CPU pressure detected" = true
  ∧ (∀ (conv : RawRow → Except String SchedulerStats)
        (q : Except String (List RawRow)) (scheds : List SchedulerStats),
      queryAndConvert conv q = .ok scheds →
      (∀ s ∈ scheds, s.runnable_tasks_count = 0) →
      (get_scheduler_stats conv q).cpu_pressure_detected = false) := by
  refine ⟨?_, by decide, ?_⟩
  · intro conv q scheds h
    rw [get_scheduler_stats_of_ok conv q scheds h]
    refine ⟨by simp, ?_, ?_⟩
    · intro hp
      have hlt : 0 < (scheds.map (fun s => s.runnable_tasks_count)).sum := by
        simpa using hp
      simp only [if_pos hlt]
      exact ⟨pressureInterpretation_contains_total _ _,
        pressureInterpretation_contains_avg _ _⟩
    · intro hp
      have hlt : ¬0 < (scheds.map (fun s => s.runnable_tasks_count)).sum := by
        simpa using hp
      simp only [if_neg hlt]
  · intro conv q scheds h h0
    rw [get_scheduler_stats_of_ok conv q scheds h]
    have hsum : (scheds.map (fun s => s.runnable_tasks_count)).sum = 0 := by
      refine List.sum_eq_zero ?_
      intro x hx
      rcases List.mem_map.mp hx with ⟨s, hs, rfl⟩
      exact h0 s hs
    simp [hsum]

/-- Concrete evaluation of claim C4's theorem: with runnable counts
`[0, 2, 3, 0]` pressure is detected and the interpretation names the total,
and a single all-zero scheduler row yields no pressure. -/
theorem C4_pressure_trigger_and_interpretation_witness :
    strContains
      (get_scheduler_stats schedulerOfRow (Except.ok exampleSchedRows)).interpretation
      (toString
        (get_scheduler_stats schedulerOfRow
          (Except.ok exampleSchedRows)).total_runnable_tasks
        ++ " task(s) waiting for CPU") = true
    ∧ (get_scheduler_stats schedulerOfRow
        (Except.ok [mkSchedRow 0 0])).cpu_pressure_detected = false := by
  constructor
  · exact ((C4_pressure_trigger_and_interpretation.1 schedulerOfRow
      (Except.ok exampleSchedRows) exampleSchedRecords rfl).2.1 rfl).1
  · exact C4_pressure_trigger_and_interpretation.2.2 schedulerOfRow
      (Except.ok [mkSchedRow 0 0])
      [{ scheduler_id := 0, current_tasks_count := 0, runnable_tasks_count := 0,
         work_queue_count := 0, pending_disk_io_count := 0 }] rfl (by decide)

/-- Claim C7: for every configuration, the connection string is the `;`-join
of emitted parts, and exactly when both user and password are non-empty the
parts include the explicit credential markers (`UID=` and `PWD=` parts) and
no integrated-auth marker; in every other case — including user set with
password empty — the parts include `Trusted_Connection=yes` and no
credential part, and no error is signalled (the builder is a total
function).  Contain/omit is stated over the emitted parts, since a raw
substring reading could be spoofed by adversarial field values. -/
theorem C7_connection_string_credential_branch :
    ∀ c : SQLServerConnection,
      get_connection_string c = String.intercalate ";" (conn_str_parts c)
      ∧ ((c.user ≠ "" ∧ c.password ≠ "") →
          ("UID=" ++ c.user) ∈ conn_str_parts c
          ∧ ("PWD=" ++ c.password) ∈ conn_str_parts c
          ∧ "Trusted_Connection=yes" ∉ conn_str_parts c)
      ∧ (¬(c.user ≠ "" ∧ c.password ≠ "") →
          "Trusted_Connection=yes" ∈ conn_str_parts c
          ∧ (∀ u : String, ("UID=" ++ u) ∉ conn_str_parts c)
          ∧ (∀ p : String, ("PWD=" ++ p) ∉ conn_str_parts c)) := by
  intro c
  refine ⟨rfl, ?_, ?_⟩
  · intro h
    rw [conn_str_parts_explicit c h]
    refine ⟨by simp, by simp, ?_⟩
    simp only [List.mem_cons, List.not_mem_nil, or_false, not_or]
    refine ⟨?_, ?_, ?_, ?_, ?_, ?_, ?_⟩
    · exact ne_of_data_get _ _ 0 'T' 'D' rfl (by rw [String.data_append]; rfl)
        (by decide)
    · exact ne_of_data_get _ _ 0 'T' 'S' rfl (by rw [String.data_append]; rfl)
        (by decide)
    · exact ne_of_data_get _ _ 0 'T' 'D' rfl (by rw [String.data_append]; rfl)
        (by decide)
    · exact ne_of_data_get _ _ 5 'e' 'S' rfl (by rw [String.data_append]; rfl)
        (by decide)
    · exact ne_of_data_get _ _ 0 'T' 'E' rfl (by rw [String.data_append]; rfl)
        (by decide)
    · exact ne_of_data_get _ _ 0 'T' 'U' rfl (by rw [String.data_append]; rfl)
        (by decide)
    · exact ne_of_data_get _ _ 0 'T' 'P' rfl (by rw [String.data_append]; rfl)
        (by decide)
  · intro h
    rw [conn_str_parts_integrated c h]
    refine ⟨by simp, ?_, ?_⟩
    · intro u
      simp only [List.mem_cons, List.not_mem_nil, or_false, not_or]
      refine ⟨?_, ?_, ?_, ?_, ?_, ?_⟩
      · exact ne_of_data_get _ _ 0 'U' 'D' (by rw [String.data_append]; rfl)
          (by rw [String.data_append]; rfl) (by decide)
      · exact ne_of_data_get _ _ 0 'U' 'S' (by rw [String.data_append]; rfl)
          (by rw [String.data_append]; rfl) (by decide)
      · exact ne_of_data_get _ _ 0 'U' 'D' (by rw [String.data_append]; rfl)
          (by rw [String.data_append]; rfl) (by decide)
      · exact ne_of_data_get _ _ 0 'U' 'T' (by rw [String.data_append]; rfl)
          (by rw [String.data_append]; rfl) (by decide)
      · exact ne_of_data_get _ _ 0 'U' 'E' (by rw [String.data_append]; rfl)
          (by rw [String.data_append]; rfl) (by decide)
      · exact ne_of_data_get _ _ 0 'U' 'T' (by rw [String.data_append]; rfl)
          rfl (by decide)
    · intro p
      simp only [List.mem_cons, List.not_mem_nil, or_false, not_or]
      refine ⟨?_, ?_, ?_, ?_, ?_, ?_⟩
      · exact ne_of_data_get _ _ 0 'P' 'D' (by rw [String.data_append]; rfl)
          (by rw [String.data_append]; rfl) (by decide)
      · exact ne_of_data_get _ _ 0 'P' 'S' (by rw [String.data_append]; rfl)
          (by rw [String.data_append]; rfl) (by decide)
      · exact ne_of_data_get _ _ 0 'P' 'D' (by rw [String.data_append]; rfl)
          (by rw [String.data_append]; rfl) (by decide)
      · exact ne_of_data_get _ _ 0 'P' 'T' (by rw [String.data_append]; rfl)
          (by rw [String.data_append]; rfl) (by decide)
      · exact ne_of_data_get _ _ 0 'P' 'E' (by rw [String.data_append]; rfl)
          (by rw [String.data_append]; rfl) (by decide)
      · exact ne_of_data_get _ _ 0 'P' 'T' (by rw [String.data_append]; rfl)
          rfl (by decide)

/-- Concrete evaluation of claim C7's theorem: full credentials emit a `UID=`
part, and a user with an empty password falls back to integrated
authentication. -/
theorem C7_connection_string_credential_branch_witness :
    ("UID=" ++ exampleConfigSql.user) ∈ conn_str_parts exampleConfigSql
    ∧ "Trusted_Connection=yes" ∈ conn_str_parts exampleConfigWin := by
  constructor
  · exact ((C7_connection_string_credential_branch exampleConfigSql).2.1
      (by decide)).1
  · exact ((C7_connection_string_credential_branch exampleConfigWin).2.2
      (by decide)).1
